import Mathlib

/-!
Shallow embedding of `src/repoze/who/plugins/ldap/plugins.py`
(repoze.who.plugins.ldap), and proofs about its behaviour.

The module defines two plugin classes, `LDAPAuthenticatorPlugin` and
`LDAPAttributesPlugin`, plus the helper `make_ldap_connection`.  The external
`ldap` library is modelled through the `LDAPConnection` record (its
`simple_bind_s` and `search_s` methods, and the `hasSimpleBind` flag modelling
`hasattr(conn, 'simple_bind_s')`), `ldap.initialize` is a parameter
(`initFn`), and `ldap.LDAPError` is the opaque `LDAPError` record.  The WSGI
environ is modelled by the one facet the plugins use: the
`repoze.who.logger` collaborator, represented as its accumulated warning log.
-/

set_option autoImplicit false

namespace RepozeWhoLdap

/-- Decidable equality for `Except`, so that outcomes of the embedded
fallible operations can be evaluated on concrete inputs. -/
instance {α β : Type} [DecidableEq α] [DecidableEq β] :
    DecidableEq (Except α β)
  | .ok a, .ok b =>
    if h : a = b then isTrue (by rw [h])
    else isFalse (fun hh => h (by cases hh; rfl))
  | .ok _, .error _ => isFalse (fun hh => by cases hh)
  | .error _, .ok _ => isFalse (fun hh => by cases hh)
  | .error a, .error b =>
    if h : a = b then isTrue (by rw [h])
    else isFalse (fun hh => h (by cases hh; rfl))

/-- Model of an `ldap.LDAPError` exception; only its string rendering
(used in the warning message of `add_metadata`) is observable. -/
structure LDAPError where
  msg : String
deriving DecidableEq, Repr

/-- Python exceptions raised and caught by the plugin code:
`KeyError`, `TypeError` (from dictionary subscription) and `ValueError`
(raised explicitly by the module, carrying its message). -/
inductive PyError where
  | keyError : PyError
  | typeError : PyError
  | valueError : String → PyError
deriving DecidableEq, Repr

/-- Values stored in the repoze.who identity dictionary and returned by
searches: strings and lists of strings are what the plugins traffic in. -/
inductive PyVal where
  | str : String → PyVal
  | strList : List String → PyVal
deriving DecidableEq, Repr

/-- Model of an LDAP connection object (`ldap.ldapobject.SimpleLDAPObject`).
`hasSimpleBind` models `hasattr(conn, 'simple_bind_s')`; `simple_bind_s`
either succeeds or raises an `ldap.LDAPError`; `search_s` takes the base,
scope, filter string and attribute list and either returns a list of result
pairs or raises an `ldap.LDAPError`. -/
structure LDAPConnection where
  hasSimpleBind : Bool
  simple_bind_s : String → String → Except LDAPError Unit
  search_s : Option PyVal → Nat → String → Option (List String) →
    Except LDAPError (List (String × PyVal))

/-- The `ldap.SCOPE_BASE` constant of the `ldap` library. -/
def SCOPE_BASE : Nat := 0

/-- Argument accepted by `make_ldap_connection`: an already-built connection
object, a string (LDAP URL), or Python `None`. -/
inductive LdapConnArg where
  | conn : LDAPConnection → LdapConnArg
  | str : String → LdapConnArg
  | pyNone : LdapConnArg

/-- Embeds `make_ldap_connection`, parameterized by `initFn`, the model of the
external `ldap.initialize` function.  Strings are checked first (so any
string, empty ones included, is handed to `ldap.initialize`), then `None`
raises `ValueError`, and anything else is returned unchanged. -/
def make_ldap_connection (initFn : String → LDAPConnection) :
    LdapConnArg → Except PyError LDAPConnection
  | .str s => .ok (initFn s)
  | .pyNone => .error (.valueError ("An LDAP connection must be specified"))
  | .conn c => .ok c

/-- The facet of the WSGI environ the plugins use: the `repoze.who.logger`
collaborator, modelled by its accumulated list of warning messages. -/
structure Environ where
  warnings : List String
deriving DecidableEq, Repr

/-- Embeds `environ['repoze.who.logger'].warn(msg)`: appends one warning. -/
def Environ.warn (e : Environ) (msg : String) : Environ :=
  ⟨e.warnings ++ [msg]⟩

/-- The credential record handed to `authenticate`: either a string-keyed
mapping (an association list in insertion order) or not a mapping at all, in
which case subscription raises `TypeError`. -/
inductive Credentials where
  | mapping : List (String × String) → Credentials
  | notMapping : Credentials

/-- First-match lookup in a string association list. -/
def assocFind : List (String × String) → String → Option String
  | [], _ => none
  | p :: t, k => if p.1 = k then some p.2 else assocFind t k

/-- Embeds Python subscription `identity[key]` on the credential record:
`KeyError` when the key is missing, `TypeError` when the record is not a
mapping. -/
def Credentials.getItem : Credentials → String → Except PyError String
  | .mapping d, k =>
    match assocFind d k with
    | some v => .ok v
    | none => .error .keyError
  | .notMapping, _ => .error .typeError

/-- State of an `LDAPAuthenticatorPlugin` instance after construction. -/
structure LDAPAuthenticatorPlugin where
  ldap_connection : LDAPConnection
  base_dn : String

/-- Embeds `LDAPAuthenticatorPlugin.__init__`: `ValueError` when `base_dn`
is `None`, otherwise the connection argument is resolved through
`make_ldap_connection` (whose `ValueError` for `None` propagates). -/
def LDAPAuthenticatorPlugin.init (initFn : String → LDAPConnection)
    (ldap_connection : LdapConnArg) (base_dn : Option String) :
    Except PyError LDAPAuthenticatorPlugin :=
  match base_dn with
  | Option.none =>
    .error (.valueError ("A base Distinguished Name must be specified"))
  | Option.some b =>
    (make_ldap_connection initFn ldap_connection).map (fun c => ⟨c, b⟩)

/-- Embeds `LDAPAuthenticatorPlugin._get_dn`: formats
`'uid=%s,%s' % (identity['login'], self.base_dn)`, catching the `KeyError`
or `TypeError` of the subscription and raising `ValueError` instead. -/
def LDAPAuthenticatorPlugin._get_dn (self : LDAPAuthenticatorPlugin)
    (_environ : Environ) (identity : Credentials) : Except PyError String :=
  match identity.getItem ("login") with
  | .ok login => .ok ("uid=" ++ login ++ "," ++ self.base_dn)
  | .error _ => .error (.valueError (""))

/-- Embeds `LDAPAuthenticatorPlugin.authenticate`.  Returns the possibly
extended warning log together with the result: `some dn` when the bind
succeeded, `none` for Python `None`.  The first `try` block evaluates
`_get_dn` and then `identity['password']`, catching `KeyError`, `TypeError`
and `ValueError`; those are exactly the errors the two expressions can
produce, so any failure of either yields `None`. -/
def LDAPAuthenticatorPlugin.authenticate (self : LDAPAuthenticatorPlugin)
    (environ : Environ) (identity : Credentials) : Environ × Option String :=
  match self._get_dn environ identity, identity.getItem ("password") with
  | .ok dn, .ok password =>
    if self.ldap_connection.hasSimpleBind then
      match self.ldap_connection.simple_bind_s dn password with
      | .ok _ => (environ, some dn)
      | .error _ => (environ, none)
    else
      (environ.warn ("Cannot bind with the provided LDAP connection object"),
       none)
  | _, _ => (environ, none)

/-- State of an `LDAPAttributesPlugin` instance after construction. -/
structure LDAPAttributesPlugin where
  ldap_connection : LDAPConnection
  attributes : Option (List String)
  filterstr : String

/-- The `attributes` argument of `LDAPAttributesPlugin.__init__`: `None`, a
string (which has a `split` method), an iterable of strings, or a value that
is none of those. -/
inductive AttrsArg where
  | pyNone : AttrsArg
  | str : String → AttrsArg
  | iter : List String → AttrsArg
  | other : AttrsArg

/-- Splits a character list at every comma; the result always has at least
one (possibly empty) group, like Python `str.split(',')`. -/
def splitCharsComma : List Char → List (List Char)
  | [] => [[]]
  | c :: cs =>
    let rest := splitCharsComma cs
    if c = ',' then [] :: rest
    else
      match rest with
      | [] => [[c]]
      | r :: rs => (c :: r) :: rs

/-- Model of Python `s.split(',')` on strings. -/
def pySplitComma (s : String) : List String :=
  (splitCharsComma s.toList).map (fun cs => String.mk cs)

/-- Embeds `LDAPAttributesPlugin.__init__`: a string attribute argument is
split on commas, an iterable is converted to a list, `None` stays `None`,
and anything else raises `ValueError`; then the connection argument is
resolved through `make_ldap_connection`. -/
def LDAPAttributesPlugin.init (initFn : String → LDAPConnection)
    (ldap_connection : LdapConnArg) (attributes : AttrsArg)
    (filterstr : String) : Except PyError LDAPAttributesPlugin := do
  let attrs ← match attributes with
    | .str s => Except.ok (Option.some (pySplitComma s))
    | .iter l => Except.ok (Option.some l)
    | .pyNone => Except.ok Option.none
    | .other =>
      Except.error (PyError.valueError ("The needed LDAP attributes are not valid"))
  let c ← make_ldap_connection initFn ldap_connection
  return ⟨c, attrs, filterstr⟩

/-- The repoze.who identity dictionary: an insertion-ordered string-keyed
mapping, modelled as an association list read by first match. -/
abbrev Identity := List (String × PyVal)

/-- Embeds Python `dict.get(key)`: the stored value, or `None` when the key
is absent. -/
def dictGet : Identity → String → Option PyVal
  | [], _ => none
  | p :: t, k => if p.1 = k then some p.2 else dictGet t k

/-- Embeds Python `d[key] = value` on an insertion-ordered mapping: replaces
the entry in place when the key is present, appends otherwise. -/
def dictSet : Identity → String → PyVal → Identity
  | [], k, v => [(k, v)]
  | p :: t, k, v => if p.1 = k then (k, v) :: t else p :: dictSet t k v

/-- Applies every (key, value) pair of a search result to the identity
dictionary in order: the `for` loop body `identity[attr_key] = attr_value`. -/
def applyResults (d : Identity) (rs : List (String × PyVal)) : Identity :=
  rs.foldl (fun acc p => dictSet acc p.1 p.2) d

/-- The value of the last pair carrying key `k` in a result list, if any. -/
def lastValue (rs : List (String × PyVal)) (k : String) : Option PyVal :=
  match rs with
  | [] => none
  | p :: t =>
    match lastValue t k with
    | some v => some v
    | none => if p.1 = k then some p.2 else none

/-- The argument tuple `args` that `add_metadata` builds for `search_s`. -/
structure SearchArgs where
  base : Option PyVal
  scope : Nat
  filterstr : String
  attrlist : Option (List String)
deriving DecidableEq, Repr

/-- Embeds `LDAPAttributesPlugin.add_metadata`.  Returns the warning log, the
updated identity dictionary, and the trace of `search_s` invocations issued.
The search target is `identity.get('repoze.who.userid')` (so `None` when the
key is absent), the scope is `ldap.SCOPE_BASE`, and the filter string and
attribute list are the configured ones.  `search_s` either returns the full
result list, whose pairs are then written into the identity, or raises an
`ldap.LDAPError`, in which case one warning is logged and the identity is
left unchanged. -/
def LDAPAttributesPlugin.add_metadata (self : LDAPAttributesPlugin)
    (environ : Environ) (identity : Identity) :
    Environ × Identity × List SearchArgs :=
  let args : SearchArgs :=
    ⟨dictGet identity ("repoze.who.userid"), SCOPE_BASE, self.filterstr,
     self.attributes⟩
  match self.ldap_connection.search_s args.base args.scope args.filterstr
      args.attrlist with
  | .ok results => (environ, applyResults identity results, [args])
  | .error e =>
    (environ.warn ("Cannot add metadata: " ++ e.msg), identity, [args])

/-! Concrete sample collaborators, used to instantiate the theorems below on
concrete inputs. -/

/-- A sample model of `ldap.initialize`: every URL yields a fresh, unbound
connection whose operations fail (the server is unreachable). -/
def initFnExample : String → LDAPConnection :=
  fun _ => ⟨false, fun _ _ => .error ⟨"down"⟩, fun _ _ _ _ => .error ⟨"down"⟩⟩

/-- A connection without the `simple_bind_s` capability. -/
def connNoBind : LDAPConnection :=
  ⟨false, fun _ _ => .error ⟨"no bind"⟩, fun _ _ _ _ => .error ⟨"no search"⟩⟩

/-- A connection whose `simple_bind_s` accepts exactly the DN of `rms` under
`ou=developers,dc=gnu,dc=org` with password `pw`. -/
def connBindRms : LDAPConnection :=
  ⟨true,
   fun d p =>
     if d = "uid=rms,ou=developers,dc=gnu,dc=org" ∧ p = "pw" then .ok ()
     else .error ⟨"invalid credentials"⟩,
   fun _ _ _ _ => .error ⟨"no search"⟩⟩

/-- A search result with a duplicated `cn` attribute. -/
def searchResultsExample : List (String × PyVal) :=
  [("cn", .str "Richard"), ("cn", .str "RMS"), ("mail", .str "rms at gnu")]

/-- A connection whose `search_s` always returns `searchResultsExample`. -/
def connSearchOk : LDAPConnection :=
  ⟨false, fun _ _ => .error ⟨"no bind"⟩, fun _ _ _ _ => .ok searchResultsExample⟩

/-- A connection whose `search_s` always fails. -/
def connSearchErr : LDAPConnection :=
  ⟨false, fun _ _ => .error ⟨"no bind"⟩, fun _ _ _ _ => .error ⟨"server is down"⟩⟩

/-- A credential record with login `rms` and password `pw`. -/
def credsRms : Credentials := .mapping [("login", "rms"), ("password", "pw")]

/-- An authenticator over `connBindRms`. -/
def authRms : LDAPAuthenticatorPlugin := ⟨connBindRms, "ou=developers,dc=gnu,dc=org"⟩

/-- An authenticator over `connNoBind`. -/
def authNoBind : LDAPAuthenticatorPlugin := ⟨connNoBind, "ou=developers,dc=gnu,dc=org"⟩

/-- An attributes plugin over `connSearchOk`. -/
def attrsPluginOk : LDAPAttributesPlugin :=
  ⟨connSearchOk, some ["cn", "mail"], "(objectClass=*)"⟩

/-- An attributes plugin over `connSearchErr`. -/
def attrsPluginErr : LDAPAttributesPlugin :=
  ⟨connSearchErr, Option.none, "(objectClass=*)"⟩

/-- An identity dictionary holding a verified user id and one unrelated key. -/
def identityExample : Identity :=
  [("repoze.who.userid", .str "uid=rms,ou=developers,dc=gnu,dc=org"),
   ("x", .str "keep")]

/-! Dictionary lemmas. -/

/-- Reading after a write: the written key reads the new value, every other
key is untouched. -/
theorem dictGet_dictSet (d : Identity) (k k' : String) (v : PyVal) :
    dictGet (dictSet d k v) k' = if k = k' then some v else dictGet d k' := by
  induction d with
  | nil => simp [dictGet, dictSet]
  | cons p t ih =>
    obtain ⟨a, b⟩ := p
    by_cases h : a = k
    · subst h
      by_cases h' : a = k' <;> simp [dictSet, dictGet, h']
    · by_cases h' : a = k'
      · have hk : ¬ k = k' := fun e => h (h'.trans e.symm)
        have hk' : ¬ k' = k := fun e => hk e.symm
        simp [dictSet, dictGet, h, h', hk, hk']
      · simp [dictSet, dictGet, h, h', ih]

/-- Folding a result list over the dictionary realises last-write-wins: a key
named in the list reads the value of its last pair, any other key keeps its
original value. -/
theorem dictGet_applyResults (rs : List (String × PyVal)) (d : Identity)
    (k : String) :
    dictGet (applyResults d rs) k =
      match lastValue rs k with
      | some v => some v
      | none => dictGet d k := by
  induction rs generalizing d with
  | nil => simp [applyResults, lastValue]
  | cons p t ih =>
    have step : applyResults d (p :: t) = applyResults (dictSet d p.1 p.2) t := rfl
    rw [step, ih]
    cases hlast : lastValue t k with
    | some v => simp [lastValue, hlast]
    | none =>
      by_cases h : p.1 = k <;>
        simp [lastValue, hlast, dictGet_dictSet, h]

/-! Claim theorems. -/

/-- C1: for every login `L` and base DN `B`, `_get_dn` returns exactly
`"uid=" ++ L ++ "," ++ B`, whatever the connection and the environ are (a
pure function of login and base, issuing no directory call); in particular
login `rms` with base `ou=developers,dc=gnu,dc=org` yields
`uid=rms,ou=developers,dc=gnu,dc=org`. -/
theorem get_dn_formula :
    (∀ (L B : String) (c c' : LDAPConnection) (e e' : Environ)
       (identity : Credentials), identity.getItem ("login") = .ok L →
       LDAPAuthenticatorPlugin._get_dn ⟨c, B⟩ e identity =
           .ok ("uid=" ++ L ++ "," ++ B)
         ∧ LDAPAuthenticatorPlugin._get_dn ⟨c, B⟩ e identity =
             LDAPAuthenticatorPlugin._get_dn ⟨c', B⟩ e' identity)
    ∧ LDAPAuthenticatorPlugin._get_dn
        ⟨connNoBind, "ou=developers,dc=gnu,dc=org"⟩ ⟨[]⟩
        (Credentials.mapping [("login", "rms")]) =
        .ok ("uid=rms,ou=developers,dc=gnu,dc=org") := by
  constructor
  · intro L B c c' e e' identity h
    constructor <;> simp [LDAPAuthenticatorPlugin._get_dn, h]
  · rfl

/-- Witness for C1: the `rms` scenario discharged through the theorem. -/
theorem get_dn_formula_witness :
    credsRms.getItem ("login") = .ok ("rms")
    ∧ LDAPAuthenticatorPlugin._get_dn authRms ⟨[]⟩ credsRms =
        .ok ("uid=rms,ou=developers,dc=gnu,dc=org") :=
  ⟨rfl,
   (get_dn_formula.1 "rms" "ou=developers,dc=gnu,dc=org" connBindRms
      connBindRms ⟨[]⟩ ⟨[]⟩ credsRms rfl).1⟩

/-- C2: with `login` and `password` present and a connection exposing
`simple_bind_s`, `authenticate` returns the computed DN exactly when the
bind succeeds, and an `ldap.LDAPError` raised by the bind yields `None`
(the error never propagates, the embedding being total); a record missing
`login`, missing `password`, or that is not a mapping at all yields
`None`. -/
theorem authenticate_contract (self : LDAPAuthenticatorPlugin)
    (environ : Environ) :
    (∀ (identity : Credentials) (l p : String),
      identity.getItem ("login") = .ok l →
      identity.getItem ("password") = .ok p →
      self.ldap_connection.hasSimpleBind = true →
      ((self.authenticate environ identity).2 =
          some ("uid=" ++ l ++ "," ++ self.base_dn) ↔
        self.ldap_connection.simple_bind_s
          ("uid=" ++ l ++ "," ++ self.base_dn) p = .ok ()))
    ∧ (∀ (identity : Credentials) (l p : String) (e : LDAPError),
      identity.getItem ("login") = .ok l →
      identity.getItem ("password") = .ok p →
      self.ldap_connection.hasSimpleBind = true →
      self.ldap_connection.simple_bind_s
        ("uid=" ++ l ++ "," ++ self.base_dn) p = .error e →
      (self.authenticate environ identity).2 = none)
    ∧ (∀ identity : Credentials,
      identity.getItem ("login") = .error .keyError →
      (self.authenticate environ identity).2 = none)
    ∧ (∀ identity : Credentials,
      identity.getItem ("password") = .error .keyError →
      (self.authenticate environ identity).2 = none)
    ∧ (self.authenticate environ Credentials.notMapping).2 = none := by
  refine ⟨?_, ?_, ?_, ?_, ?_⟩
  · intro identity l p hl hp hb
    simp only [LDAPAuthenticatorPlugin.authenticate,
      LDAPAuthenticatorPlugin._get_dn, hl, hp, hb, if_true]
    cases hbind : self.ldap_connection.simple_bind_s
        ("uid=" ++ l ++ "," ++ self.base_dn) p with
    | ok u => cases u; simp
    | error e => simp
  · intro identity l p e hl hp hb hbind
    simp only [LDAPAuthenticatorPlugin.authenticate,
      LDAPAuthenticatorPlugin._get_dn, hl, hp, hb, if_true, hbind]
  · intro identity hl
    cases hp : identity.getItem ("password") <;>
      simp [LDAPAuthenticatorPlugin.authenticate,
        LDAPAuthenticatorPlugin._get_dn, hl, hp]
  · intro identity hp
    cases hl : identity.getItem ("login") <;>
      simp [LDAPAuthenticatorPlugin.authenticate,
        LDAPAuthenticatorPlugin._get_dn, hl, hp]
  · rfl

/-- Witness for C2: a successful bind, a missing login, a missing password
and a non-mapping record, all discharged through the theorem. -/
theorem authenticate_contract_witness :
    (authRms.authenticate ⟨[]⟩ credsRms).2 =
      some ("uid=rms,ou=developers,dc=gnu,dc=org")
    ∧ (authRms.authenticate ⟨[]⟩
        (Credentials.mapping [("password", "pw")])).2 = none
    ∧ (authRms.authenticate ⟨[]⟩
        (Credentials.mapping [("login", "rms")])).2 = none
    ∧ (authRms.authenticate ⟨[]⟩ Credentials.notMapping).2 = none := by
  refine ⟨?_, ?_, ?_, ?_⟩
  · exact ((authenticate_contract authRms ⟨[]⟩).1 credsRms "rms" "pw"
      rfl rfl rfl).mpr (by decide)
  · exact (authenticate_contract authRms ⟨[]⟩).2.2.1
      (Credentials.mapping [("password", "pw")]) rfl
  · exact (authenticate_contract authRms ⟨[]⟩).2.2.2.1
      (Credentials.mapping [("login", "rms")]) rfl
  · exact (authenticate_contract authRms ⟨[]⟩).2.2.2.2

/-- C3 counterexample: the empty string is an empty input, yet
`make_ldap_connection` hands it to `ldap.initialize` and returns the
resulting connection instead of failing with the configuration error. -/
theorem make_ldap_connection_empty_string_cex :
    make_ldap_connection initFnExample (.str "") = .ok (initFnExample "")
    ∧ (make_ldap_connection initFnExample (.str "") =
        .error (.valueError ("An LDAP connection must be specified"))) = False :=
  ⟨rfl, eq_false (fun h => Except.noConfusion h)⟩

/-- C3 (amended): `make_ldap_connection` returns a pre-built connection
unchanged, builds a new connection through `ldap.initialize` for every
string — the empty string included — fails with the configuration
`ValueError` exactly for `None`, and raises in no other case. -/
theorem make_ldap_connection_cases (initFn : String → LDAPConnection)
    (c : LDAPConnection) (s : String) :
    make_ldap_connection initFn (.conn c) = .ok c
    ∧ make_ldap_connection initFn (.str s) = .ok (initFn s)
    ∧ make_ldap_connection initFn .pyNone =
        .error (.valueError ("An LDAP connection must be specified"))
    ∧ ∀ arg : LdapConnArg, arg = .pyNone ∨
        ∃ cc : LDAPConnection, make_ldap_connection initFn arg = .ok cc := by
  refine ⟨rfl, rfl, rfl, ?_⟩
  intro arg
  cases arg with
  | conn c' => exact Or.inr ⟨c', rfl⟩
  | str s' => exact Or.inr ⟨initFn s', rfl⟩
  | pyNone => exact Or.inl rfl

/-- C4 counterexample: an empty (but present) base DN is accepted by the
authenticator constructor, which succeeds instead of failing with the
configuration error. -/
theorem authenticator_init_empty_base_cex :
    LDAPAuthenticatorPlugin.init initFnExample (.conn connNoBind) (some "") =
      .ok ⟨connNoBind, ""⟩
    ∧ (LDAPAuthenticatorPlugin.init initFnExample (.conn connNoBind)
        (some "") =
        .error (.valueError ("A base Distinguished Name must be specified"))) =
        False :=
  ⟨rfl, eq_false (fun h => Except.noConfusion h)⟩

/-- C4 (amended): the authenticator constructor fails with the configuration
`ValueError` exactly when the base DN is absent (`None`); any present base
string — the empty string included — together with either a pre-built
connection or an address string yields a plugin holding that connection and
base. -/
theorem authenticator_init_cases (initFn : String → LDAPConnection)
    (c : LDAPConnection) (s b : String) (arg : LdapConnArg) :
    LDAPAuthenticatorPlugin.init initFn arg Option.none =
      .error (.valueError ("A base Distinguished Name must be specified"))
    ∧ LDAPAuthenticatorPlugin.init initFn (.conn c) (some b) = .ok ⟨c, b⟩
    ∧ LDAPAuthenticatorPlugin.init initFn (.str s) (some b) =
        .ok ⟨initFn s, b⟩ :=
  ⟨rfl, rfl, rfl⟩

/-- C5: when both credentials are present but the connection lacks
`simple_bind_s`, `authenticate` logs exactly one warning through the
logging collaborator and returns `None` (the embedding is total, so nothing
propagates). -/
theorem authenticate_no_bind_warns (self : LDAPAuthenticatorPlugin)
    (environ : Environ) (identity : Credentials) (l p : String)
    (hl : identity.getItem ("login") = .ok l)
    (hp : identity.getItem ("password") = .ok p)
    (hb : self.ldap_connection.hasSimpleBind = false) :
    self.authenticate environ identity =
      (⟨environ.warnings ++
          ["Cannot bind with the provided LDAP connection object"]⟩, none) := by
  simp [LDAPAuthenticatorPlugin.authenticate,
    LDAPAuthenticatorPlugin._get_dn, hl, hp, hb, Environ.warn]

/-- Witness for C5: the no-capability connection logs its single warning. -/
theorem authenticate_no_bind_warns_witness :
    credsRms.getItem ("login") = .ok ("rms")
    ∧ connNoBind.hasSimpleBind = false
    ∧ authNoBind.authenticate ⟨[]⟩ credsRms =
        (⟨["Cannot bind with the provided LDAP connection object"]⟩, none) :=
  ⟨rfl, rfl,
   authenticate_no_bind_warns authNoBind ⟨[]⟩ credsRms "rms" "pw" rfl rfl rfl⟩

/-- C6: when the identity dictionary holds verified identifier `U` under
`repoze.who.userid`, `add_metadata` issues exactly one search, whose scope
is `ldap.SCOPE_BASE` (base entry only), whose target is `U`, and whose
filter string and attribute list are the configured ones. -/
theorem add_metadata_one_search (self : LDAPAttributesPlugin)
    (environ : Environ) (identity : Identity) (U : PyVal)
    (h : dictGet identity ("repoze.who.userid") = some U) :
    (self.add_metadata environ identity).2.2 =
      [⟨some U, SCOPE_BASE, self.filterstr, self.attributes⟩] := by
  simp only [LDAPAttributesPlugin.add_metadata, h]
  split <;> rfl

/-- Witness for C6: the sample plugin issues its single base-scoped search
for the stored user id. -/
theorem add_metadata_one_search_witness :
    dictGet identityExample ("repoze.who.userid") =
      some (PyVal.str "uid=rms,ou=developers,dc=gnu,dc=org")
    ∧ (attrsPluginOk.add_metadata ⟨[]⟩ identityExample).2.2 =
        [⟨some (PyVal.str "uid=rms,ou=developers,dc=gnu,dc=org"), SCOPE_BASE,
          attrsPluginOk.filterstr, attrsPluginOk.attributes⟩] :=
  ⟨rfl,
   add_metadata_one_search attrsPluginOk ⟨[]⟩ identityExample
     (PyVal.str "uid=rms,ou=developers,dc=gnu,dc=org") rfl⟩

/-- C7: when the search returns result list `rs`, `add_metadata` writes its
pairs into the identity dictionary in order with last-write-wins per key:
afterwards every key named in `rs` reads the value of the last pair of `rs`
carrying it, and every other key keeps its original value. -/
theorem add_metadata_last_write_wins (self : LDAPAttributesPlugin)
    (environ : Environ) (identity : Identity)
    (rs : List (String × PyVal)) (k : String)
    (h : self.ldap_connection.search_s
          (dictGet identity ("repoze.who.userid")) SCOPE_BASE
          self.filterstr self.attributes = .ok rs) :
    dictGet (self.add_metadata environ identity).2.1 k =
      match lastValue rs k with
      | some v => some v
      | none => dictGet identity k := by
  simp only [LDAPAttributesPlugin.add_metadata, h]
  exact dictGet_applyResults rs identity k

/-- Witness for C7: in the sample search result the duplicated `cn` reads
its last value and the unrelated key `x` keeps its original value. -/
theorem add_metadata_last_write_wins_witness :
    dictGet (attrsPluginOk.add_metadata ⟨[]⟩ identityExample).2.1 ("cn") =
      some (PyVal.str "RMS")
    ∧ dictGet (attrsPluginOk.add_metadata ⟨[]⟩ identityExample).2.1 ("x") =
        some (PyVal.str "keep") := by
  constructor
  · exact (add_metadata_last_write_wins attrsPluginOk ⟨[]⟩ identityExample
      searchResultsExample ("cn") rfl).trans (by decide)
  · exact (add_metadata_last_write_wins attrsPluginOk ⟨[]⟩ identityExample
      searchResultsExample ("x") rfl).trans (by decide)

/-- C8: on a search failure `add_metadata` swallows the `ldap.LDAPError`
(the embedding is total, nothing propagates), logs exactly one warning
rendering it, and leaves the identity dictionary unchanged. -/
theorem add_metadata_search_error (self : LDAPAttributesPlugin)
    (environ : Environ) (identity : Identity) (e : LDAPError)
    (h : self.ldap_connection.search_s
          (dictGet identity ("repoze.who.userid")) SCOPE_BASE
          self.filterstr self.attributes = .error e) :
    (self.add_metadata environ identity).2.1 = identity
    ∧ (self.add_metadata environ identity).1.warnings =
        environ.warnings ++ ["Cannot add metadata: " ++ e.msg] := by
  simp [LDAPAttributesPlugin.add_metadata, h, Environ.warn]

/-- Witness for C8: the failing-search plugin leaves the identity alone and
logs its single warning. -/
theorem add_metadata_search_error_witness :
    (attrsPluginErr.add_metadata ⟨[]⟩ identityExample).2.1 = identityExample
    ∧ (attrsPluginErr.add_metadata ⟨[]⟩ identityExample).1.warnings =
        ["Cannot add metadata: server is down"] := by
  have h := add_metadata_search_error attrsPluginErr ⟨[]⟩ identityExample
    ⟨"server is down"⟩ rfl
  exact ⟨h.1, h.2.trans (by decide)⟩

/-- C9: constructing the attributes plugin with the comma string `"cn,mail"`
yields exactly the same result as constructing it with the list
`["cn", "mail"]`: the same stored attribute list, and the same
`add_metadata` behaviour on every input. -/
theorem attributes_comma_equiv (initFn : String → LDAPConnection)
    (arg : LdapConnArg) (fs : String) :
    LDAPAttributesPlugin.init initFn arg (.str "cn,mail") fs =
      LDAPAttributesPlugin.init initFn arg (.iter ["cn", "mail"]) fs
    ∧ ∀ (p q : LDAPAttributesPlugin) (environ : Environ)
        (identity : Identity),
      LDAPAttributesPlugin.init initFn arg (.str "cn,mail") fs = .ok p →
      LDAPAttributesPlugin.init initFn arg (.iter ["cn", "mail"]) fs = .ok q →
      p.attributes = q.attributes
      ∧ p.add_metadata environ identity = q.add_metadata environ identity := by
  have heq : LDAPAttributesPlugin.init initFn arg (.str "cn,mail") fs =
      LDAPAttributesPlugin.init initFn arg (.iter ["cn", "mail"]) fs := rfl
  refine ⟨heq, ?_⟩
  intro p q environ identity hp hq
  have h2 : (Except.ok p : Except PyError LDAPAttributesPlugin) =
      Except.ok q := by rw [← hp, heq, hq]
  have hpq : p = q := Except.ok.inj h2
  subst hpq
  exact ⟨rfl, rfl⟩

/-- Witness for C9: the behavioural consequence discharged at the sample
connection, with both constructions evaluated to the same plugin. -/
theorem attributes_comma_equiv_witness :
    LDAPAttributesPlugin.init initFnExample (.conn connSearchOk)
        (.str "cn,mail") ("(objectClass=*)") = .ok attrsPluginOk
    ∧ (attrsPluginOk.attributes = attrsPluginOk.attributes
       ∧ attrsPluginOk.add_metadata ⟨[]⟩ identityExample =
           attrsPluginOk.add_metadata ⟨[]⟩ identityExample) :=
  ⟨rfl,
   (attributes_comma_equiv initFnExample (.conn connSearchOk)
      ("(objectClass=*)")).2 attrsPluginOk attrsPluginOk ⟨[]⟩ identityExample
     rfl rfl⟩

/-- C10: when the identity dictionary lacks `repoze.who.userid`, the `get`
lookup yields `None` without raising, and `add_metadata` still issues its
single search, with `None` as the target. -/
theorem add_metadata_missing_userid (self : LDAPAttributesPlugin)
    (environ : Environ) (identity : Identity)
    (h : dictGet identity ("repoze.who.userid") = Option.none) :
    (self.add_metadata environ identity).2.2 =
      [⟨Option.none, SCOPE_BASE, self.filterstr, self.attributes⟩] := by
  simp only [LDAPAttributesPlugin.add_metadata, h]
  split <;> rfl

/-- Witness for C10: an identity without the well-known key still triggers
the one search, targeted at `None`. -/
theorem add_metadata_missing_userid_witness :
    dictGet [("x", PyVal.str "keep")] ("repoze.who.userid") = Option.none
    ∧ (attrsPluginErr.add_metadata ⟨[]⟩ [("x", PyVal.str "keep")]).2.2 =
        [⟨Option.none, SCOPE_BASE, attrsPluginErr.filterstr,
          attrsPluginErr.attributes⟩] :=
  ⟨rfl,
   add_metadata_missing_userid attrsPluginErr ⟨[]⟩ [("x", PyVal.str "keep")]
     rfl⟩

end RepozeWhoLdap
